import Mathlib

/-!
Verification of packages/package-manager/src/PnpmPackageManager.ts.

The file shallowly embeds the module: the peer-dependency warning pattern
(a module-level JavaScript RegExp with the global flag), the
PnpmStdoutTransform line filter, the split(/\r?\n/) pipeline, the spawn
configuration built by the constructor and _runAsync, the facade argument
vectors, and the two synchronous filesystem operations.  Lines and streams
are lists of characters; filesystem and environment effects are explicit
data.
-/

set_option maxRecDepth 8192

/-! ## The warning pattern

Source:
  const ansi = (?: ansiRegex().source )*;
  const startPnpmPeerDependencyWarningPattern =
    new RegExp(ansi ++ "WARN" ++ ansi ++ ".*Issues with peer dependencies found", "g");

The ansi sub-pattern comes from the ansi-regex npm dependency (not part of
src/); we model its CSI branch, which is the branch that matches terminal
styling sequences such as ESC [ 3 3 m: an ESC, an opening bracket, a run of
parameter characters (digits and semicolons) and a final letter.  A JS dot
matches every character except the four line terminators.  Because the
RegExp carries the global flag, RegExp.prototype.test is stateful: it
searches from lastIndex, stores the end of a successful match back into
lastIndex, and resets lastIndex to zero on failure.
-/

def escChar : Char := Char.ofNat 27

/-- Parameter bytes of a CSI styling sequence. -/
def isCsiParamChar (c : Char) : Bool := c.isDigit || c == ';'

/-- Consume the tail of a CSI sequence (after ESC [): parameter characters
followed by a final letter; returns the remainder on success. -/
def csiTail : List Char → Option (List Char)
  | [] => none
  | c :: cs =>
      if isCsiParamChar c then csiTail cs
      else if c.isAlpha then some cs
      else none

/-- Consume one leading terminal styling escape sequence, if present. -/
def stripAnsiOne : List Char → Option (List Char)
  | c1 :: c2 :: cs => if c1 == escChar && c2 == '[' then csiTail cs else none
  | _ => none

/-- Greedily strip leading styling sequences; fuel bounds the recursion (each
successful strip consumes at least three characters). -/
def stripAnsiGo : Nat → List Char → List Char
  | 0, t => t
  | fuel + 1, t =>
      match stripAnsiOne t with
      | some rest => stripAnsiGo fuel rest
      | none => t

def stripAnsi (t : List Char) : List Char := stripAnsiGo t.length t

def warnLit : List Char := ("WARN").toList

def issuesLit : List Char := ("Issues with peer dependencies found").toList

/-- JS line terminators, which the dot of a regular expression never matches. -/
def isJsLineTerm (c : Char) : Bool :=
  c == '\n' || c == '\r' || c == '\u2028' || c == '\u2029'

/-- Whether the first list is an initial segment of the second. -/
def beginsWith : List Char → List Char → Bool
  | [], _ => true
  | _ :: _, [] => false
  | p :: ps, c :: cs => p == c && beginsWith ps cs

/-- Scan the line-terminator-free region for occurrences of `issuesLit`,
keeping the end offset of the last one (greedy dot-star semantics). -/
def lastIssuesEndGo : List Char → Nat → Option Nat → Option Nat
  | [], _, best => best
  | c :: cs, k, best =>
      if isJsLineTerm c then best
      else
        lastIssuesEndGo cs (k + 1)
          (if beginsWith issuesLit (c :: cs) then some (k + issuesLit.length) else best)

def lastIssuesEnd (u : List Char) : Option Nat := lastIssuesEndGo u 0 none

/-- Attempt to match the warning pattern at the head of `t`: styling
sequences, the literal WARN, then (styling sequences and dot-star, which
agree on everything except line terminators) up to the last occurrence of
the peer-dependency literal.  Returns the number of characters matched. -/
def matchLenAt (t : List Char) : Option Nat :=
  if beginsWith warnLit (stripAnsi t) then
    match lastIssuesEnd ((stripAnsi t).drop warnLit.length) with
    | some e => some ((t.length - (stripAnsi t).length) + warnLit.length + e)
    | none => none
  else none

/-- Leftmost match at a position at or after the suffix start `j`; returns
the absolute end index of the match. -/
def findFrom : List Char → Nat → Option Nat
  | [], _ => none
  | c :: cs, j =>
      match matchLenAt (c :: cs) with
      | some len => some (j + len)
      | none => findFrom cs (j + 1)

/-- Whether the pattern matches anywhere in the line. -/
def findFromB : List Char → Bool
  | [] => false
  | c :: cs => (matchLenAt (c :: cs)).isSome || findFromB cs

/-- RegExp.prototype.test on a global regex: search from `lastIndex`;
on success return true and the match end as the new lastIndex, on failure
return false and reset lastIndex to zero. -/
def testG (s : List Char) (lastIndex : Nat) : Bool × Nat :=
  match findFrom (s.drop lastIndex) lastIndex with
  | some e => (true, e)
  | none => (false, 0)

/-! ## PnpmStdoutTransform

Source `_transform`, one chunk (the upstream splitter delivers one line per
chunk):

  const line = chunk.toString();
  if (!this.isPeerDepsWarning && startPnpmPeerDependencyWarningPattern.test(line)) {
    this.isPeerDepsWarning = true;
  } else if (this.isPeerDepsWarning && !line) {
    this.isPeerDepsWarning = false;
  }
  if (!this.isPeerDepsWarning) { this.push(line); }

The state is the per-instance boolean `isPeerDepsWarning` together with the
module-level `lastIndex` of the shared global RegExp.  A JS string is falsy
exactly when it is empty.  In a Node byte-mode stream, pushing a zero-length
chunk adds no data to the readable side, so the observable emission of a
push is empty for the empty chunk.
-/

def pushData (line : List Char) : List (List Char) :=
  if line.isEmpty then [] else [line]

/-- One `_transform` call: given the suppressing flag, the shared regex
lastIndex and the chunk, return the new flag, the new lastIndex and the
chunks observably emitted. -/
def transformStep : Bool → Nat → List Char → Bool × Nat × List (List Char)
  | true, li, line =>
      if line.isEmpty then (false, li, pushData line) else (true, li, [])
  | false, li, line =>
      match testG line li with
      | (true, li2) => (true, li2, [])
      | (false, li2) => (false, li2, pushData line)

/-- Feed a list of chunks through one transform instance: returns the
emitted chunks, the final flag and the final shared lastIndex. -/
def runFilter : Bool → Nat → List (List Char) → List (List Char) × Bool × Nat
  | flag, li, [] => ([], flag, li)
  | flag, li, line :: rest =>
      match transformStep flag li line with
      | (flag2, li2, out) =>
          match runFilter flag2 li2 rest with
          | (outs, flag3, li3) => (out ++ outs, flag3, li3)

/-! ## The split pipeline

Source, in `_runAsync`:

  promise.child.stdout
    .pipe(split(r, line => line + newline))   -- r is the pattern CR? LF
    .pipe(new PnpmStdoutTransform())
    .pipe(process.stdout);

The split dependency cuts the byte stream at every CR LF or LF, applies the
mapper (which appends a LF) to every piece, including the final remainder
flushed at end of stream, and hands each mapped piece to the transform as
one chunk.
-/

/-- Split on CR LF or LF; the accumulator holds the current piece reversed. -/
def splitRNGo : List Char → List Char → List (List Char)
  | [], acc => [acc.reverse]
  | '\r' :: '\n' :: rest, acc => acc.reverse :: splitRNGo rest []
  | '\n' :: rest, acc => acc.reverse :: splitRNGo rest []
  | c :: rest, acc => splitRNGo rest (c :: acc)

def splitRN (s : List Char) : List (List Char) := splitRNGo s []

/-- Bytes written to process.stdout by the full chain
split → PnpmStdoutTransform → process.stdout, for a fresh transform and a
fresh regex (lastIndex zero). -/
def pipelineStdout (childOut : List Char) : List Char :=
  (runFilter false 0 ((splitRN childOut).map (fun l => l ++ ['\n']))).1.flatten

/-! ## Spawn configuration

Environment objects are association lists looked up by key.
-/

abbrev Env : Type := List (String × String)

def envLookup (e : Env) (k : String) : Option String :=
  (e.find? (fun p => p.1 == k)).map (fun p => p.2)

/-- JS object spread of two objects where the second overrides the first,
modelled up to key lookup: the overriding entries are placed in front, so a
lookup prefers them exactly as the spread result does.  (JS additionally
preserves the first object's key order, which envLookup cannot observe.) -/
def jsSpread (a b : Env) : Env := b ++ a

/-- Modelled from the spec: DISABLE_ADS_ENV is imported from
./NodePackageManagers, a file of this repository that is not under src/.
The spec describes it only as an override that disables any
telemetry/ad/update-notification chatter the package manager might print,
taking precedence over inherited values; we model it as a fixed nonempty
mapping with representative keys. -/
def DISABLE_ADS_ENV : Env := [("ADBLOCK", "1"), ("DISABLE_OPENCOLLECTIVE", "1")]

/-- One standard-stream channel configuration of child_process.spawn. -/
inductive StdioChan
  | inherit
  | pipe
deriving DecidableEq

/-- One call to the spawner: command, arguments and the options object.
`env = none` and `cwd = none` mean the option was absent; `stdio = none`
means no stdio option was given (Node then pipes all three streams). -/
structure SpawnCall where
  cmd : String
  args : List String
  env : Option Env
  cwd : Option String
  stdio : Option (StdioChan × StdioChan × StdioChan)
  ignoreStdio : Bool

/-- The spawner call made by `_runAsync`: options are the constructor's
`this.options` spread with `ignoreStdio: false`.  The constructor sets
`env: { ...process.env, ...DISABLE_ADS_ENV }`, `cwd`, and either
`ignoreStdio: true` (silent) or `stdio: ['inherit', 'inherit', 'pipe']`. -/
def runAsyncSpawnCall (parent : Env) (cwd : Option String) (silent : Bool)
    (args : List String) : SpawnCall :=
  { cmd := "pnpm"
    args := args
    env := some (jsSpread parent DISABLE_ADS_ENV)
    cwd := cwd
    stdio := if silent then none
             else some (StdioChan.inherit, StdioChan.inherit, StdioChan.pipe)
    ignoreStdio := false }

/-- The spawner call made by `versionAsync`: spawner("pnpm", ["--version"],
{ stdio: "pipe" }); the string form pipes all three streams, and neither
env nor cwd is passed. -/
def versionSpawnCall : SpawnCall :=
  { cmd := "pnpm"
    args := ["--version"]
    env := none
    cwd := none
    stdio := some (StdioChan.pipe, StdioChan.pipe, StdioChan.pipe)
    ignoreStdio := false }

/-- The spawner call made by `getConfigAsync`: spawner("pnpm",
["config", "get", key], { stdio: "pipe" }). -/
def getConfigSpawnCall (key : String) : SpawnCall :=
  { cmd := "pnpm"
    args := ["config", "get", key]
    env := none
    cwd := none
    stdio := some (StdioChan.pipe, StdioChan.pipe, StdioChan.pipe)
    ignoreStdio := false }

/-- Environment the child actually receives at a key, per Node semantics:
when the env option is absent the child inherits the parent environment
unmodified. -/
def effectiveChildEnvLookup (parent : Env) (sc : SpawnCall) (k : String) :
    Option String :=
  match sc.env with
  | some e => envLookup e k
  | none => envLookup parent k

/-- Node: child.stdout is a readable stream exactly when the stdout channel
is piped; an inherited stdout leaves child.stdout null.  The default stdio
(no stdio option) pipes every stream. -/
def childStdoutPresent (sc : SpawnCall) : Bool :=
  match sc.stdio with
  | none => true
  | some (_, StdioChan.pipe, _) => true
  | some (_, StdioChan.inherit, _) => false

/-- The guard in `_runAsync`: promise.child.stdout && !this.options.ignoreStdio.
The constructor stores ignoreStdio exactly when silent. -/
def filterChainAttached (silent : Bool) (sc : SpawnCall) : Bool :=
  childStdoutPresent sc && !silent

/-- Observable actions of one `_runAsync` invocation, in program order. -/
inductive RunEvent
  | logEv (msg : String)
  | spawnEv (call : SpawnCall)
  | attachFilterEv

/-- Trace of `_runAsync(args)`: log the command line unless
options.ignoreStdio (set exactly when silent), spawn, then attach the
split/PnpmStdoutTransform/process.stdout chain when the guard holds. -/
def runAsyncTrace (parent : Env) (cwd : Option String) (silent : Bool)
    (args : List String) : List RunEvent :=
  (if silent then []
   else [RunEvent.logEv ("> pnpm " ++ String.intercalate " " args)]) ++
  [RunEvent.spawnEv (runAsyncSpawnCall parent cwd silent args)] ++
  (if filterChainAttached silent (runAsyncSpawnCall parent cwd silent args) then
     [RunEvent.attachFilterEv]
   else [])

def logMsgs : List RunEvent → List String
  | [] => []
  | RunEvent.logEv m :: rest => m :: logMsgs rest
  | _ :: rest => logMsgs rest

def attachCount : List RunEvent → Nat
  | [] => 0
  | RunEvent.attachFilterEv :: rest => attachCount rest + 1
  | _ :: rest => attachCount rest

def spawnedArgs : List RunEvent → List (List String)
  | [] => []
  | RunEvent.spawnEv c :: rest => c.args :: spawnedArgs rest
  | _ :: rest => spawnedArgs rest

/-- Bytes from the child's stdout that reach the parent's terminal, per Node
stdio semantics: an inherited stdout writes straight through; a piped stdout
reaches the terminal only via the filter chain when `_runAsync` attaches it,
and an unconsumed or spawner-consumed pipe shows nothing. -/
def runAsyncTerminalStdout (parent : Env) (cwd : Option String) (silent : Bool)
    (args : List String) (childOut : List Char) : List Char :=
  match (runAsyncSpawnCall parent cwd silent args).stdio with
  | some (_, StdioChan.inherit, _) => childOut
  | _ =>
      if filterChainAttached silent (runAsyncSpawnCall parent cwd silent args) then
        pipelineStdout childOut
      else []

/-! ## Facade argument vectors

Each facade operation performs exactly one `_runAsync` call; these are the
argument vectors it passes.
-/

def installAsyncArgs : List String := ["install"]

def addWithParametersAsyncArgs (names parameters : List String) : List String :=
  if names.isEmpty then installAsyncArgs
  else "add" :: (parameters ++ names)

def addAsyncArgs (names : List String) : List String :=
  addWithParametersAsyncArgs names []

def addDevAsyncArgs (names : List String) : List String :=
  if names.isEmpty then installAsyncArgs
  else "add" :: "--save-dev" :: names

def addGlobalAsyncArgs (names : List String) : List String :=
  if names.isEmpty then installAsyncArgs
  else "add" :: "--global" :: names

def removeAsyncArgs (names : List String) : List String :=
  "remove" :: names

/-! ## Filesystem operations

removeLockfileAsync and cleanAsync first assert on this.options.cwd (a JS
falsiness check: undefined and the empty string throw), then probe
fs.existsSync and call rimraf.sync only when the target exists.  We record
the filesystem operations performed together with the assertion error, if
any.
-/

/-- Node path.join for a directory and one relative segment, the only form
the source uses. -/
def pathJoin (dir name : String) : String := dir ++ "/" ++ name

/-- JS falsiness of the cwd option: undefined and the empty string. -/
def cwdFalsy : Option String → Bool
  | none => true
  | some s => s == ""

inductive FsOp
  | existsCheck (p : String)
  | rimrafSync (p : String)
deriving DecidableEq

/-- removeLockfileAsync: assert cwd, then existsSync on cwd/pnpm-lock.yaml
and rimraf.sync when present.  Returns the operations performed and the
assertion error, if any. -/
def removeLockfileAsyncRun (cwd : Option String) (fsE : String → Bool) :
    List FsOp × Option String :=
  if cwdFalsy cwd then
    ([], some "cwd required for PnpmPackageManager.removeLockfileAsync")
  else
    (if fsE (pathJoin (cwd.getD "") "pnpm-lock.yaml") then
       [FsOp.existsCheck (pathJoin (cwd.getD "") "pnpm-lock.yaml"),
        FsOp.rimrafSync (pathJoin (cwd.getD "") "pnpm-lock.yaml")]
     else [FsOp.existsCheck (pathJoin (cwd.getD "") "pnpm-lock.yaml")],
     none)

/-- cleanAsync: assert cwd, then existsSync on cwd/node_modules and
rimraf.sync when present. -/
def cleanAsyncRun (cwd : Option String) (fsE : String → Bool) :
    List FsOp × Option String :=
  if cwdFalsy cwd then
    ([], some "cwd required for PnpmPackageManager.cleanAsync")
  else
    (if fsE (pathJoin (cwd.getD "") "node_modules") then
       [FsOp.existsCheck (pathJoin (cwd.getD "") "node_modules"),
        FsOp.rimrafSync (pathJoin (cwd.getD "") "node_modules")]
     else [FsOp.existsCheck (pathJoin (cwd.getD "") "node_modules")],
     none)

/-! ## Concrete sample inputs used by witnesses and counterexamples -/

/-- The warning header exactly as pnpm prints it without styling. -/
def warnHeaderLine : List Char :=
  ("WARN  Issues with peer dependencies found").toList

/-- The warning header wrapped in terminal styling escape sequences. -/
def ansiHeaderLine : List Char :=
  ("\x1b[33mWARN\x1b[39m  Issues with peer dependencies found").toList

def samplePeerDepLine : List Char := (".  react 18.0.0 is required").toList

def sampleNextLine : List Char := ("next").toList

def sampleRestLine : List Char := ("done").toList

/-- A child stdout containing a peer-dependency warning block followed by
further output. -/
def peerDepsStdout : List Char :=
  ("WARN  Issues with peer dependencies found\n\nnext\n").toList

/-! ## Helper lemmas about the matcher and the transform -/

/-- Success of the scan does not depend on the index carried along. -/
theorem findFrom_isSome (t : List Char) : ∀ j : Nat,
    (findFrom t j).isSome = findFromB t := by
  induction t with
  | nil => intro j; rfl
  | cons c cs ih =>
      intro j
      simp only [findFrom, findFromB]
      cases h : matchLenAt (c :: cs) with
      | some len => simp
      | none => simp [ih (j + 1)]

/-- If the pattern matches nowhere in a line, it matches nowhere in any
tail of the line. -/
theorem findFromB_tail (c : Char) (cs : List Char)
    (h : findFromB (c :: cs) = false) : findFromB cs = false := by
  simp only [findFromB, Bool.or_eq_false_iff] at h
  exact h.2

theorem findFromB_drop (t : List Char) (h : findFromB t = false) :
    ∀ k : Nat, findFromB (t.drop k) = false := by
  induction t with
  | nil => intro k; rw [List.drop_nil]; rfl
  | cons c cs ih =>
      intro k
      cases k with
      | zero => exact h
      | succ k2 => exact ih (findFromB_tail c cs h) k2

/-- A line the pattern matches nowhere fails the stateful test from every
lastIndex, and resets lastIndex to zero. -/
theorem testG_noMatch (s : List Char) (li : Nat) (h : findFromB s = false) :
    testG s li = (false, 0) := by
  have h2 : (findFrom (s.drop li) li).isSome = false := by
    rw [findFrom_isSome]
    exact findFromB_drop s h li
  unfold testG
  cases hf : findFrom (s.drop li) li with
  | none => rfl
  | some e => rw [hf] at h2; simp at h2

/-- A nonempty chunk cannot observably push the empty chunk away: it is
forwarded as itself. -/
theorem pushData_of_ne (line : List Char) (h : line ≠ []) :
    pushData line = [line] := by
  cases line with
  | nil => exact absurd rfl h
  | cons c cs => rfl

/-- While suppressing, a nonempty chunk (in particular a second header
line) changes nothing: the flag stays set, the shared lastIndex is not
touched (the test is short-circuited) and nothing is emitted. -/
theorem transformStep_suppressing (li : Nat) (line : List Char)
    (h : line ≠ []) : transformStep true li line = (true, li, []) := by
  cases line with
  | nil => exact absurd rfl h
  | cons c cs => rfl

/-- While suppressing, the empty chunk resets the flag and emits nothing. -/
theorem transformStep_reset (li : Nat) :
    transformStep true li [] = (false, li, []) := rfl

/-- While passing, a chunk the test accepts sets the flag, stores the match
end into the shared lastIndex and is itself suppressed. -/
theorem transformStep_trigger (s : List Char) (li : Nat)
    (h : (testG s li).1 = true) :
    transformStep false li s = (true, (testG s li).2, []) := by
  rcases ht : testG s li with ⟨b, l⟩
  rw [ht] at h
  simp at h
  subst h
  simp [transformStep, ht]

/-- While passing, a chunk the pattern matches nowhere is forwarded and
resets the shared lastIndex to zero. -/
theorem transformStep_pass (li : Nat) (line : List Char)
    (h : findFromB line = false) :
    transformStep false li line = (false, 0, pushData line) := by
  simp [transformStep, testG_noMatch line li h]

theorem runFilter_nil (flag : Bool) (li : Nat) :
    runFilter flag li [] = ([], flag, li) := rfl

theorem runFilter_cons (flag : Bool) (li : Nat) (line : List Char)
    (rest : List (List Char)) :
    runFilter flag li (line :: rest) =
      ((transformStep flag li line).2.2 ++
         (runFilter (transformStep flag li line).1
           (transformStep flag li line).2.1 rest).1,
       (runFilter (transformStep flag li line).1
         (transformStep flag li line).2.1 rest).2.1,
       (runFilter (transformStep flag li line).1
         (transformStep flag li line).2.1 rest).2.2) := by
  rcases hs : transformStep flag li line with ⟨f, l, out⟩
  rcases hr : runFilter f l rest with ⟨outs, f3, l3⟩
  simp [runFilter, hs, hr]

/-- A block of nonempty chunks arriving while suppressing is swallowed
whole without touching the state. -/
theorem runFilter_suppress_append (block : List (List Char)) (li : Nat)
    (rest : List (List Char)) (h : ∀ b ∈ block, b ≠ []) :
    runFilter true li (block ++ rest) = runFilter true li rest := by
  induction block with
  | nil => rfl
  | cons b bs ih =>
      have hb : b ≠ [] := h b (List.mem_cons_self b bs)
      have hbs : ∀ x ∈ bs, x ≠ [] := fun x hx => h x (List.mem_cons_of_mem b hx)
      rw [List.cons_append, runFilter_cons, transformStep_suppressing li b hb]
      simp [ih hbs]

/-- While passing, a stream of nonempty chunks the pattern matches nowhere
is forwarded verbatim, whatever lastIndex the shared regex starts with, and
the flag stays cleared. -/
theorem runFilter_pass : ∀ (fs : List (List Char)) (li : Nat),
    (∀ f ∈ fs, findFromB f = false ∧ f ≠ []) →
    (runFilter false li fs).1 = fs ∧ (runFilter false li fs).2.1 = false
  | [], li, _ => ⟨rfl, rfl⟩
  | f :: fs2, li, h => by
      have hf := h f (List.mem_cons_self f fs2)
      have hrec := runFilter_pass fs2 0 (fun x hx => h x (List.mem_cons_of_mem f hx))
      rw [runFilter_cons, transformStep_pass li f hf.1, pushData_of_ne f hf.2]
      constructor
      · simp [hrec.1]
      · simp [hrec.2]

/-! ## Claim C1 -/

/-- C1: from the initial module state, a header line that matches the
peer-dependency warning pattern, followed by N nonempty lines, followed by
one empty line, followed by further ordinary lines (nonempty, not matching
the warning pattern), makes the line filter emit exactly the further lines,
in order and unchanged — neither the header, nor the N lines, nor the
terminating empty line are emitted — and the suppressing flag is reset (by
the empty line) at the end of the stream. -/
theorem c1_block_suppressed (hdr : List Char) (block fs : List (List Char))
    (hhdr : (testG hdr 0).1 = true)
    (hblock : ∀ b ∈ block, b ≠ [])
    (hfs : ∀ f ∈ fs, findFromB f = false ∧ f ≠ []) :
    (runFilter false 0 (hdr :: (block ++ [] :: fs))).1 = fs ∧
    (runFilter false 0 (hdr :: (block ++ [] :: fs))).2.1 = false := by
  rw [runFilter_cons, transformStep_trigger hdr 0 hhdr]
  have hsup := runFilter_suppress_append block ((testG hdr 0).2) ([] :: fs) hblock
  have hpass := runFilter_pass fs ((testG hdr 0).2) hfs
  simp only [hsup]
  rw [runFilter_cons, transformStep_reset]
  constructor
  · simp [hpass.1]
  · simp [hpass.2]

/-- C1 witness: a styled header, one warning line, the blank terminator and
the line "next"; only "next" is emitted and the flag is reset. -/
theorem c1_witness :
    (runFilter false 0
      (ansiHeaderLine :: ([samplePeerDepLine] ++ [] :: [sampleNextLine]))).1 =
        [sampleNextLine] ∧
    (runFilter false 0
      (ansiHeaderLine :: ([samplePeerDepLine] ++ [] :: [sampleNextLine]))).2.1 =
        false :=
  c1_block_suppressed ansiHeaderLine [samplePeerDepLine] [sampleNextLine]
    (by decide) (by decide) (by decide)

/-! ## Claim C6 -/

/-- C6: a header line arriving while the filter is already suppressing has
no additional effect (the flag stays set, the shared lastIndex is untouched,
nothing is emitted); only an empty line clears the flag; consequently two
consecutive header lines with no intervening blank line behave exactly as a
single suppressed block. -/
theorem c6_retrigger_idempotent (li : Nat) (hdr : List Char)
    (rest : List (List Char)) (hne : hdr ≠ [])
    (htrig : (testG hdr li).1 = true) :
    transformStep true li hdr = (true, li, []) ∧
    (transformStep true li []).1 = false ∧
    runFilter false li (hdr :: hdr :: rest) = runFilter false li (hdr :: rest) := by
  refine ⟨transformStep_suppressing li hdr hne, rfl, ?_⟩
  have h1 := transformStep_trigger hdr li htrig
  have h2 := transformStep_suppressing ((testG hdr li).2) hdr hne
  simp [runFilter_cons, h1, h2]

/-- C6 witness at the unstyled header, lastIndex zero and one trailing
line. -/
theorem c6_witness :
    transformStep true 0 warnHeaderLine = (true, 0, []) ∧
    (transformStep true 0 []).1 = false ∧
    runFilter false 0 (warnHeaderLine :: warnHeaderLine :: [sampleRestLine]) =
      runFilter false 0 (warnHeaderLine :: [sampleRestLine]) :=
  c6_retrigger_idempotent 0 warnHeaderLine [sampleRestLine] (by decide) (by decide)

/-! ## Claim C3 -/

/-- C3 exhibits the failure: the warning pattern is a module-level RegExp
with the global flag, so RegExp.test carries its lastIndex across transform
instances.  A fresh instance fed exactly the header suppresses it (and
leaves lastIndex at the match end, 41); a second fresh instance fed the
identical stream then fails the test (searching from index 41) and forwards
the header.  Identical inputs, different outputs. -/
theorem c3_shared_pattern_state :
    (runFilter false 0 [warnHeaderLine]).1 = [] ∧
    (runFilter false 0 [warnHeaderLine]).2.2 = 41 ∧
    (runFilter false 41 [warnHeaderLine]).1 = [warnHeaderLine] ∧
    (runFilter false 0 [warnHeaderLine]).1 ≠
      (runFilter false 41 [warnHeaderLine]).1 := by
  refine ⟨by decide, by decide, by decide, by decide⟩

/-! ## Claim C2 -/

/-- C2 exhibits the failure: in non-silent mode the constructor selects
stdio ["inherit", "inherit", "pipe"], so the child's stdout is inherited —
child.stdout is null, the split/PnpmStdoutTransform/process.stdout chain is
never attached, and the raw warning text reaches the terminal; the text
reaching the terminal is not the filter pipeline's output. -/
theorem c2_terminal_gets_unfiltered_stdout :
    runAsyncTerminalStdout [] none false ["install"] peerDepsStdout =
      peerDepsStdout ∧
    pipelineStdout peerDepsStdout ≠ peerDepsStdout ∧
    attachCount (runAsyncTrace [] none false ["install"]) = 0 := by
  refine ⟨rfl, by decide, rfl⟩

/-! ## Claim C4 -/

/-- C4: add, addWithParameters, addDev and addGlobal with an empty names
list each degrade to exactly the argument vector of install, namely
["install"]. -/
theorem c4_empty_names_degrade (parameters : List String) :
    addAsyncArgs [] = ["install"] ∧
    addWithParametersAsyncArgs [] parameters = ["install"] ∧
    addDevAsyncArgs [] = ["install"] ∧
    addGlobalAsyncArgs [] = ["install"] ∧
    installAsyncArgs = ["install"] :=
  ⟨rfl, rfl, rfl, rfl, rfl⟩

/-! ## Claim C8 -/

/-- C8: with a nonempty names list, add produces ["add", ...names], addDev
produces ["add", "--save-dev", ...names], addGlobal produces
["add", "--global", ...names] and addWithParameters produces
["add", ...parameters, ...names], preserving order. -/
theorem c8_nonempty_add_vectors (names parameters : List String)
    (h : names ≠ []) :
    addAsyncArgs names = "add" :: names ∧
    addDevAsyncArgs names = "add" :: "--save-dev" :: names ∧
    addGlobalAsyncArgs names = "add" :: "--global" :: names ∧
    addWithParametersAsyncArgs names parameters =
      "add" :: (parameters ++ names) := by
  cases names with
  | nil => exact absurd rfl h
  | cons n ns => exact ⟨rfl, rfl, rfl, rfl⟩

/-- C8 witness at names ["foo", "bar"] and parameters ["--dry-run"]. -/
theorem c8_witness :
    addAsyncArgs ["foo", "bar"] = "add" :: ["foo", "bar"] ∧
    addDevAsyncArgs ["foo", "bar"] = "add" :: "--save-dev" :: ["foo", "bar"] ∧
    addGlobalAsyncArgs ["foo", "bar"] = "add" :: "--global" :: ["foo", "bar"] ∧
    addWithParametersAsyncArgs ["foo", "bar"] ["--dry-run"] =
      "add" :: (["--dry-run"] ++ ["foo", "bar"]) :=
  c8_nonempty_add_vectors ["foo", "bar"] ["--dry-run"] (by decide)

/-! ## Claim C10 -/

/-- C10: remove with an empty names list does not degrade to install: the
single spawn of the invocation carries exactly ["remove"], which differs
from the install vector that the add family degrades to. -/
theorem c10_remove_empty_is_remove (parent : Env) (cwd : Option String)
    (silent : Bool) :
    removeAsyncArgs [] = ["remove"] ∧
    spawnedArgs (runAsyncTrace parent cwd silent (removeAsyncArgs [])) =
      [["remove"]] ∧
    removeAsyncArgs [] ≠ installAsyncArgs ∧
    addAsyncArgs [] = installAsyncArgs := by
  cases silent with
  | false => exact ⟨rfl, rfl, by decide, rfl⟩
  | true => exact ⟨rfl, rfl, by decide, rfl⟩

/-! ## Claim C9 -/

/-- C9: a silent instance never invokes the logger and never attaches the
line filter to any stream; a non-silent instance's trace is exactly one
logger call carrying the full command line, followed by the spawn — one log
per invocation, emitted before spawning. -/
theorem c9_logging_and_filter_effects (parent : Env) (cwd : Option String)
    (args : List String) :
    logMsgs (runAsyncTrace parent cwd true args) = [] ∧
    attachCount (runAsyncTrace parent cwd true args) = 0 ∧
    runAsyncTrace parent cwd false args =
      [RunEvent.logEv ("> pnpm " ++ String.intercalate " " args),
       RunEvent.spawnEv (runAsyncSpawnCall parent cwd false args)] :=
  ⟨rfl, rfl, rfl⟩

/-! ## Claim C7 -/

/-- C7: removeLockfile and clean called with cwd never configured (or
empty, which the JS assert also rejects) fail at once with the precondition
error and touch the filesystem in no way; with cwd set and the target
absent they complete without error and perform only the existence probe —
no mutation. -/
theorem c7_precondition_and_noop (c : String) (fsE : String → Bool)
    (hc : c ≠ "")
    (h1 : fsE (pathJoin c "pnpm-lock.yaml") = false)
    (h2 : fsE (pathJoin c "node_modules") = false) :
    removeLockfileAsyncRun none fsE =
      ([], some "cwd required for PnpmPackageManager.removeLockfileAsync") ∧
    cleanAsyncRun none fsE =
      ([], some "cwd required for PnpmPackageManager.cleanAsync") ∧
    removeLockfileAsyncRun (some c) fsE =
      ([FsOp.existsCheck (pathJoin c "pnpm-lock.yaml")], none) ∧
    cleanAsyncRun (some c) fsE =
      ([FsOp.existsCheck (pathJoin c "node_modules")], none) := by
  have hcb : (c == "") = false := by simp [hc]
  refine ⟨rfl, rfl, ?_, ?_⟩
  · simp [removeLockfileAsyncRun, cwdFalsy, hcb, h1]
  · simp [cleanAsyncRun, cwdFalsy, hcb, h2]

/-- C7 witness at cwd "app" over an empty filesystem. -/
theorem c7_witness :
    removeLockfileAsyncRun none (fun _ => false) =
      ([], some "cwd required for PnpmPackageManager.removeLockfileAsync") ∧
    cleanAsyncRun none (fun _ => false) =
      ([], some "cwd required for PnpmPackageManager.cleanAsync") ∧
    removeLockfileAsyncRun (some "app") (fun _ => false) =
      ([FsOp.existsCheck (pathJoin "app" "pnpm-lock.yaml")], none) ∧
    cleanAsyncRun (some "app") (fun _ => false) =
      ([FsOp.existsCheck (pathJoin "app" "node_modules")], none) :=
  c7_precondition_and_noop "app" (fun _ => false) (by decide) rfl rfl

/-! ## Claim C5 -/

/-- Lookup in a spread prefers the overriding object. -/
theorem envLookup_spread_override (a b : Env) (k v : String)
    (h : envLookup b k = some v) : envLookup (jsSpread a b) k = some v := by
  unfold envLookup jsSpread at *
  rcases hf : b.find? (fun p => p.1 == k) with _ | q
  · rw [hf] at h; simp at h
  · rw [hf] at h
    rw [List.find?_append, hf]
    simpa using h

/-- Lookup in a spread falls back to the base object off the override. -/
theorem envLookup_spread_none (a b : Env) (k : String)
    (h : envLookup b k = none) : envLookup (jsSpread a b) k = envLookup a k := by
  unfold envLookup jsSpread at *
  have hf : b.find? (fun p => p.1 == k) = none := by
    rcases hb : b.find? (fun p => p.1 == k) with _ | q
    · exact hb
    · rw [hb] at h; simp at h
  rw [List.find?_append, hf]
  rfl

/-- C5 counterexample: the claim extends the merged-environment rule to the
Captured-mode operations, but versionAsync spawns with options
containing only stdio — no env — so the child inherits the parent
environment unmodified.  With a parent that sets an override key to "0",
the claimed merged environment would give "1" while the version child sees
"0": the claim is false for version (and getConfig). -/
theorem c5_counterexample :
    effectiveChildEnvLookup [("ADBLOCK", "0")] versionSpawnCall "ADBLOCK" =
      some "0" ∧
    envLookup (jsSpread [("ADBLOCK", "0")] DISABLE_ADS_ENV) "ADBLOCK" =
      some "1" ∧
    effectiveChildEnvLookup [("ADBLOCK", "0")] versionSpawnCall "ADBLOCK" ≠
      envLookup (jsSpread [("ADBLOCK", "0")] DISABLE_ADS_ENV) "ADBLOCK" := by
  refine ⟨rfl, rfl, by decide⟩

/-- C5 amended: every operation routed through _runAsync (install, the add
family, remove) spawns with the parent environment merged with the
telemetry/ad-disabling override, the override winning on key collisions and
untouched keys falling through to the parent; version and getConfig pass no
env option at all, so their children inherit the parent environment
unmodified. -/
theorem c5_amended_env_merge (parent : Env) (cwd : Option String)
    (silent : Bool) (args : List String) (ckey k k2 v : String)
    (hov : envLookup DISABLE_ADS_ENV k = some v)
    (hnot : envLookup DISABLE_ADS_ENV k2 = none) :
    effectiveChildEnvLookup parent (runAsyncSpawnCall parent cwd silent args) k =
      some v ∧
    effectiveChildEnvLookup parent (runAsyncSpawnCall parent cwd silent args) k2 =
      envLookup parent k2 ∧
    versionSpawnCall.env = none ∧
    (getConfigSpawnCall ckey).env = none ∧
    effectiveChildEnvLookup parent versionSpawnCall k = envLookup parent k ∧
    effectiveChildEnvLookup parent (getConfigSpawnCall ckey) k =
      envLookup parent k := by
  refine ⟨?_, ?_, rfl, rfl, rfl, rfl⟩
  · exact envLookup_spread_override parent DISABLE_ADS_ENV k v hov
  · exact envLookup_spread_none parent DISABLE_ADS_ENV k2 hnot

/-- C5 witness: parent sets PATH and a colliding override key; the
_runAsync child sees the override value "1" on the collision and the parent
value on PATH, while the version and getConfig children see the parent
unmodified. -/
theorem c5_witness :
    effectiveChildEnvLookup [("PATH", "/bin"), ("ADBLOCK", "0")]
      (runAsyncSpawnCall [("PATH", "/bin"), ("ADBLOCK", "0")] (some "app")
        false ["install"]) "ADBLOCK" = some "1" ∧
    effectiveChildEnvLookup [("PATH", "/bin"), ("ADBLOCK", "0")]
      (runAsyncSpawnCall [("PATH", "/bin"), ("ADBLOCK", "0")] (some "app")
        false ["install"]) "PATH" =
      envLookup [("PATH", "/bin"), ("ADBLOCK", "0")] "PATH" ∧
    versionSpawnCall.env = none ∧
    (getConfigSpawnCall "registry").env = none ∧
    effectiveChildEnvLookup [("PATH", "/bin"), ("ADBLOCK", "0")]
      versionSpawnCall "ADBLOCK" =
      envLookup [("PATH", "/bin"), ("ADBLOCK", "0")] "ADBLOCK" ∧
    effectiveChildEnvLookup [("PATH", "/bin"), ("ADBLOCK", "0")]
      (getConfigSpawnCall "registry") "ADBLOCK" =
      envLookup [("PATH", "/bin"), ("ADBLOCK", "0")] "ADBLOCK" :=
  c5_amended_env_merge [("PATH", "/bin"), ("ADBLOCK", "0")] (some "app")
    false ["install"] "registry" "ADBLOCK" "PATH" "1" (by decide) (by decide)
